import Mathlib

/-!
Verification of the generic paginated resource-access abstraction
(`BaseCrudService` in `src/app/core/services/base-crud.service.ts`) of the
mindhub-client repository, against its natural-language specification.

The service keeps three pieces of local state (signals): a busy flag
`isLoading`, an optional `currentItem`, and an ordered mirror `items` of the
most recently listed collection.  Each of the five operations (create,
getById, update, delete, getList) sets the busy flag, issues an HTTP call,
and on settlement (the `tap` handler on success, the `catchError` handler on
failure) updates the state and returns the result.  The HTTP transport is an
external collaborator, so each operation is embedded as a pure function of
the pre-call state and the transport's outcome (`Except E _`), returning the
post-call state and the value signalled to the caller.
-/

/-- `ApiResponse` from `src/app/shared/common` (src/unnamed/part_016):
`{ message: string; success: boolean; data?: T }`.  The type parameter `D`
stands for the TS default `any` of the optional `data` field. -/
structure ApiResponse (D : Type) where
  message : String
  success : Bool
  data : Option D
deriving DecidableEq

/-- `PaginatedResponse<T>` from `src/app/shared/common/list-params.interface.ts`:
`{ content: T[]; totalElements; totalPages; size; number; first; last }`. -/
structure PaginatedResponse (T : Type) where
  content : List T
  totalElements : Int
  totalPages : Int
  size : Int
  number : Int
  first : Bool
  last : Bool
deriving DecidableEq

/-- `BaseListParams` of `base-crud.service.ts` (page, size, optional sort);
optional TS fields become `Option`. -/
structure BaseListParams where
  page : Option Int
  size : Option Int
  sort : Option String
deriving DecidableEq

namespace BaseCrudService

/-- The three private signals of `BaseCrudService`:
`_isLoading : signal<boolean>`, `_currentItem : signal<T | null>`,
`_items : signal<T[]>`. -/
structure CrudState (T : Type) where
  isLoading : Bool
  currentItem : Option T
  items : List T
deriving DecidableEq

/-- Signal initial values at construction:
`signal<boolean>(false)`, `signal<T | null>(null)`, `signal<T[]>([])`. -/
def initialState {T : Type} : CrudState T :=
  { isLoading := false, currentItem := none, items := [] }

/-- Every operation begins with `this._isLoading.set(true)`. -/
def issueCall {T : Type} (s : CrudState T) : CrudState T :=
  { s with isLoading := true }

/-- The `catchError` handler shared by all five operations:
`this._isLoading.set(false)` and the error is re-thrown unchanged. -/
def failSettle {T : Type} (s : CrudState T) : CrudState T :=
  { s with isLoading := false }

/-- The `tap` handler of `create`:
`this._items.update(items => [item, ...items]); this._isLoading.set(false)`. -/
def createSettle {T : Type} (item : T) (s : CrudState T) : CrudState T :=
  { s with items := item :: s.items, isLoading := false }

/-- The `tap` handler of `getById`:
`this._currentItem.set(item); this._isLoading.set(false)`. -/
def getByIdSettle {T : Type} (item : T) (s : CrudState T) : CrudState T :=
  { s with currentItem := some item, isLoading := false }

/-- The `tap` handler of `update`: `this._currentItem.set(updatedItem)`;
`this._items.update(items => items.map(item => this.getItemId(item) === id ? updatedItem : item))`;
`this._isLoading.set(false)`. -/
def updateSettle {T : Type} (getItemId : T → Int) (id : Int) (updatedItem : T)
    (s : CrudState T) : CrudState T :=
  { s with
    currentItem := some updatedItem,
    items := s.items.map (fun item => if getItemId item = id then updatedItem else item),
    isLoading := false }

/-- The `tap` handler of `delete`:
`this._items.update(items => items.filter(item => this.getItemId(item) !== id))`;
then `if (this._currentItem() && this.getItemId(this._currentItem()!) === id)`
clear the slot; `this._isLoading.set(false)`. -/
def deleteSettle {T : Type} (getItemId : T → Int) (id : Int)
    (s : CrudState T) : CrudState T :=
  { s with
    items := s.items.filter (fun item => getItemId item != id),
    currentItem :=
      match s.currentItem with
      | some cur => if getItemId cur = id then none else some cur
      | none => none,
    isLoading := false }

/-- The `tap` handler of `getList`:
`this._items.set(response.content); this._isLoading.set(false)`. -/
def getListSettle {T : Type} (response : PaginatedResponse T) (s : CrudState T) :
    CrudState T :=
  { s with items := response.content, isLoading := false }

/-- `create(request)`: sets the busy flag, POSTs `request`; on success prepends
the returned item to the mirror and emits it; on failure resets the flag and
re-signals the error. -/
def create {T C E : Type} (request : C) (s : CrudState T) (resp : Except E T) :
    CrudState T × Except E T :=
  let s1 := issueCall s
  match resp with
  | Except.ok item => (createSettle item s1, Except.ok item)
  | Except.error err => (failSettle s1, Except.error err)

/-- `getById(id)`: sets the busy flag, GETs `{API_URL}/{id}`; on success stores
the item in the current-item slot and emits it; on failure resets the flag and
re-signals the error. -/
def getById {T E : Type} (id : Int) (s : CrudState T) (resp : Except E T) :
    CrudState T × Except E T :=
  let s1 := issueCall s
  match resp with
  | Except.ok item => (getByIdSettle item s1, Except.ok item)
  | Except.error err => (failSettle s1, Except.error err)

/-- `update(id, request)`: sets the busy flag, PUTs to `{API_URL}/{id}`; on
success stores the returned item in the current-item slot, replaces every
mirror entry whose id matches, and emits the item; on failure resets the flag
and re-signals the error. -/
def update {T U E : Type} (getItemId : T → Int) (id : Int) (request : U)
    (s : CrudState T) (resp : Except E T) : CrudState T × Except E T :=
  let s1 := issueCall s
  match resp with
  | Except.ok updatedItem => (updateSettle getItemId id updatedItem s1, Except.ok updatedItem)
  | Except.error err => (failSettle s1, Except.error err)

/-- `delete(id)`: sets the busy flag, DELETEs `{API_URL}/{id}`; on success
removes matching mirror entries, clears a matching current-item slot, and
emits the confirmation; on failure resets the flag and re-signals the error. -/
def delete {T D E : Type} (getItemId : T → Int) (id : Int)
    (s : CrudState T) (resp : Except E (ApiResponse D)) :
    CrudState T × Except E (ApiResponse D) :=
  let s1 := issueCall s
  match resp with
  | Except.ok confirmation => (deleteSettle getItemId id s1, Except.ok confirmation)
  | Except.error err => (failSettle s1, Except.error err)

/-- The `HttpParams` built by `getList`: `page` and `size` are added when
present, `sort` only when truthy (a present empty string is falsy in TS). -/
def listHttpParams (params : Option BaseListParams) : List (String × String) :=
  match params with
  | none => []
  | some p =>
    (match p.page with
     | some page => [("page", toString page)]
     | none => []) ++
    (match p.size with
     | some size => [("size", toString size)]
     | none => []) ++
    (match p.sort with
     | some sort => if sort = "" then [] else [("sort", sort)]
     | none => [])

/-- `getList(params)`: sets the busy flag, GETs `{API_URL}` with the built
query params; on success replaces the whole mirror with the page content and
emits the page; on failure resets the flag and re-signals the error. -/
def getList {T E : Type} (params : Option BaseListParams) (s : CrudState T)
    (resp : Except E (PaginatedResponse T)) :
    CrudState T × Except E (PaginatedResponse T) :=
  let s1 := issueCall s
  match resp with
  | Except.ok response => (getListSettle response s1, Except.ok response)
  | Except.error err => (failSettle s1, Except.error err)

/-!
Trace model for the busy flag.  Calls run on the single-threaded event loop:
issuing a call applies `issueCall` (the synchronous `_isLoading.set(true)`),
and the later settlement applies the corresponding `tap` handler on success
or the `catchError` handler on failure.  Calls are identified by a `Nat`
ticket; the ghost fields `openCalls`/`issued` record which calls are in
flight and which tickets were already used, so that a run of a trace is
`some _` exactly on well-formed traces (settling only open calls, never
reusing a ticket).
-/

/-- One settlement outcome: the success handler of one of the five
operations, or the shared failure handler. -/
inductive Settlement (T : Type) where
  | created (item : T)
  | fetched (item : T)
  | updated (id : Int) (item : T)
  | deleted (id : Int)
  | listed (response : PaginatedResponse T)
  | failed
deriving DecidableEq

/-- Apply a settlement to the service state: each constructor dispatches to
the handler of the corresponding operation. -/
def applySettlement {T : Type} (getItemId : T → Int) (out : Settlement T)
    (s : CrudState T) : CrudState T :=
  match out with
  | Settlement.created item => createSettle item s
  | Settlement.fetched item => getByIdSettle item s
  | Settlement.updated id item => updateSettle getItemId id item s
  | Settlement.deleted id => deleteSettle getItemId id s
  | Settlement.listed response => getListSettle response s
  | Settlement.failed => failSettle s

/-- An observable event of one wrapper instance: a call being issued or a
call settling with some outcome. -/
inductive CallEvent (T : Type) where
  | issue (callId : Nat)
  | settle (callId : Nat) (outcome : Settlement T)
deriving DecidableEq

/-- Service state plus ghost bookkeeping of in-flight and used tickets. -/
structure TraceState (T : Type) where
  st : CrudState T
  openCalls : List Nat
  issued : List Nat
deriving DecidableEq

/-- The trace starts at the construction state with no call in flight. -/
def initTrace {T : Type} : TraceState T :=
  { st := initialState, openCalls := [], issued := [] }

/-- One event step; `none` on an ill-formed event. -/
def stepEvent {T : Type} (getItemId : T → Int) (ts : TraceState T) :
    CallEvent T → Option (TraceState T)
  | CallEvent.issue c =>
      if c ∈ ts.issued then none
      else some { st := issueCall ts.st, openCalls := c :: ts.openCalls,
                  issued := c :: ts.issued }
  | CallEvent.settle c outcome =>
      if c ∈ ts.openCalls then
        some { st := applySettlement getItemId outcome ts.st,
               openCalls := ts.openCalls.erase c, issued := ts.issued }
      else none

/-- Run a whole trace of events. -/
def runTrace {T : Type} (getItemId : T → Int) (ts : TraceState T) :
    List (CallEvent T) → Option (TraceState T)
  | [] => some ts
  | e :: rest => (stepEvent getItemId ts e).bind (fun ts2 => runTrace getItemId ts2 rest)

/-- `serializedFrom k t`: with `k` calls currently in flight, no issue in `t`
happens while another call is in flight. -/
def serializedFrom {T : Type} (k : Nat) : List (CallEvent T) → Bool
  | [] => true
  | CallEvent.issue _ :: rest => decide (k = 0) && serializedFrom 1 rest
  | CallEvent.settle _ _ :: rest => serializedFrom (k - 1) rest

/-- A trace is serialized when every call settles before the next is issued. -/
def Serialized {T : Type} (t : List (CallEvent T)) : Prop :=
  serializedFrom 0 t = true

/-- `clearState()`: resets all three signals to their initial values. -/
def clearState {T : Type} (_ : CrudState T) : CrudState T :=
  { currentItem := none, items := [], isLoading := false }

/-- `setLoading(loading)`: overwrites the busy flag. -/
def setLoading {T : Type} (loading : Bool) (s : CrudState T) : CrudState T :=
  { s with isLoading := loading }

end BaseCrudService

open BaseCrudService

/-- Claim C1: every operation of the resource client (create, getById,
update, delete, getList) that fails leaves `items` and `currentItem` at
their pre-call values, resets the busy flag to `false`, and re-signals the
error unchanged to the caller. -/
theorem c1_failed_operation_leaves_state_untouched {T C U D E : Type}
    (getItemId : T → Int) (request : C) (ureq : U) (i : Int)
    (params : Option BaseListParams) (s : CrudState T) (err : E) :
    ((create request s (Except.error err : Except E T)).1.items = s.items ∧
     (create request s (Except.error err : Except E T)).1.currentItem = s.currentItem ∧
     (create request s (Except.error err : Except E T)).1.isLoading = false ∧
     (create request s (Except.error err : Except E T)).2 = Except.error err) ∧
    ((getById i s (Except.error err : Except E T)).1.items = s.items ∧
     (getById i s (Except.error err : Except E T)).1.currentItem = s.currentItem ∧
     (getById i s (Except.error err : Except E T)).1.isLoading = false ∧
     (getById i s (Except.error err : Except E T)).2 = Except.error err) ∧
    ((update getItemId i ureq s (Except.error err : Except E T)).1.items = s.items ∧
     (update getItemId i ureq s (Except.error err : Except E T)).1.currentItem = s.currentItem ∧
     (update getItemId i ureq s (Except.error err : Except E T)).1.isLoading = false ∧
     (update getItemId i ureq s (Except.error err : Except E T)).2 = Except.error err) ∧
    ((delete getItemId i s (Except.error err : Except E (ApiResponse D))).1.items = s.items ∧
     (delete getItemId i s (Except.error err : Except E (ApiResponse D))).1.currentItem = s.currentItem ∧
     (delete getItemId i s (Except.error err : Except E (ApiResponse D))).1.isLoading = false ∧
     (delete getItemId i s (Except.error err : Except E (ApiResponse D))).2 = Except.error err) ∧
    ((getList params s (Except.error err : Except E (PaginatedResponse T))).1.items = s.items ∧
     (getList params s (Except.error err : Except E (PaginatedResponse T))).1.currentItem = s.currentItem ∧
     (getList params s (Except.error err : Except E (PaginatedResponse T))).1.isLoading = false ∧
     (getList params s (Except.error err : Except E (PaginatedResponse T))).2 = Except.error err) :=
  ⟨⟨rfl, rfl, rfl, rfl⟩, ⟨rfl, rfl, rfl, rfl⟩, ⟨rfl, rfl, rfl, rfl⟩,
   ⟨rfl, rfl, rfl, rfl⟩, ⟨rfl, rfl, rfl, rfl⟩⟩

/-- Claim C2: a successful `create(payload)` prepends the server-returned
item to the mirror — it becomes the first element of `items`, every
pre-call element follows it in its previous order — and the operation
returns that item. -/
theorem c2_create_prepends_returned_item {T C E : Type} (request : C)
    (s : CrudState T) (item : T) :
    (create request s (Except.ok item : Except E T)).1.items.head? = some item ∧
    (create request s (Except.ok item : Except E T)).1.items.tail = s.items ∧
    (create request s (Except.ok item : Except E T)).1.items = item :: s.items ∧
    (create request s (Except.ok item : Except E T)).2 = Except.ok item :=
  ⟨rfl, rfl, rfl, rfl⟩

/-- Claim C3: a successful `update(id, payload)` replaces the element of
`items` whose identifier equals `id` with the returned item (matching by
identifier equality), leaves every other element and the order unchanged
(stated pointwise over positions, with the length preserved), and sets
`currentItem` to the returned item. -/
theorem c3_update_replaces_matching_entry {T U E : Type} (getItemId : T → Int)
    (i : Int) (request : U) (s : CrudState T) (u : T) :
    (update getItemId i request s (Except.ok u : Except E T)).1.currentItem = some u ∧
    (update getItemId i request s (Except.ok u : Except E T)).1.items.length
      = s.items.length ∧
    (∀ k : Nat,
      ((update getItemId i request s (Except.ok u : Except E T)).1.items)[k]? =
        (s.items[k]?).map (fun item => if getItemId item = i then u else item)) ∧
    (update getItemId i request s (Except.ok u : Except E T)).2 = Except.ok u :=
  ⟨rfl,
   List.length_map s.items _,
   fun k => List.getElem?_map _ s.items k,
   rfl⟩

/-- Claim C4: a successful `delete(id)` leaves no element with identifier
`id` in `items`, keeps all non-matching elements in their previous order
(the new mirror is a sublist of the old one containing every non-matching
element), clears `currentItem` exactly when its identifier equalled `id`,
and otherwise leaves `currentItem` unchanged. -/
theorem c4_delete_removes_matching {T D E : Type} (getItemId : T → Int) (i : Int)
    (s : CrudState T) (confirmation : ApiResponse D) :
    (∀ x ∈ (delete getItemId i s
        (Except.ok confirmation : Except E (ApiResponse D))).1.items,
       getItemId x ≠ i) ∧
    ((delete getItemId i s
        (Except.ok confirmation : Except E (ApiResponse D))).1.items.Sublist s.items) ∧
    (∀ x ∈ s.items, getItemId x ≠ i →
       x ∈ (delete getItemId i s
         (Except.ok confirmation : Except E (ApiResponse D))).1.items) ∧
    (s.currentItem = none →
       (delete getItemId i s
         (Except.ok confirmation : Except E (ApiResponse D))).1.currentItem = none) ∧
    (∀ x, s.currentItem = some x → getItemId x = i →
       (delete getItemId i s
         (Except.ok confirmation : Except E (ApiResponse D))).1.currentItem = none) ∧
    (∀ x, s.currentItem = some x → getItemId x ≠ i →
       (delete getItemId i s
         (Except.ok confirmation : Except E (ApiResponse D))).1.currentItem = some x) ∧
    (delete getItemId i s
       (Except.ok confirmation : Except E (ApiResponse D))).2 = Except.ok confirmation := by
  refine ⟨?_, ?_, ?_, ?_, ?_, ?_, rfl⟩
  · intro x hx
    have hx2 : x ∈ s.items.filter (fun item => getItemId item != i) := hx
    have := (List.mem_filter.mp hx2).2
    simpa using this
  · exact List.filter_sublist s.items
  · intro x hx hne
    exact List.mem_filter.mpr ⟨hx, by simpa using hne⟩
  · intro h
    show (deleteSettle getItemId i (issueCall s)).currentItem = none
    simp [deleteSettle, issueCall, h]
  · intro x hx hid
    show (deleteSettle getItemId i (issueCall s)).currentItem = none
    simp [deleteSettle, issueCall, hx, hid]
  · intro x hx hne
    show (deleteSettle getItemId i (issueCall s)).currentItem = some x
    simp [deleteSettle, issueCall, hx, hne]

/-- Witness for C4 at the spec's scenario: `delete(5)` succeeding on
`items = [3, 5]` with `currentItem = some 5` keeps the non-matching item 3
and clears the current-item slot. -/
theorem c4_delete_removes_matching_witness :
    ((3 : Int) ∈ (delete (fun x : Int => x) 5 (⟨false, some 5, [3, 5]⟩ : CrudState Int)
        (Except.ok (⟨"ok", true, none⟩ : ApiResponse Unit)
          : Except Unit (ApiResponse Unit))).1.items) ∧
    (delete (fun x : Int => x) 5 (⟨false, some 5, [3, 5]⟩ : CrudState Int)
        (Except.ok (⟨"ok", true, none⟩ : ApiResponse Unit)
          : Except Unit (ApiResponse Unit))).1.currentItem = none :=
  ⟨(c4_delete_removes_matching (fun x : Int => x) 5 ⟨false, some 5, [3, 5]⟩
      ⟨"ok", true, none⟩).2.2.1 3 (by decide) (by decide),
   (c4_delete_removes_matching (fun x : Int => x) 5 ⟨false, some 5, [3, 5]⟩
      ⟨"ok", true, none⟩).2.2.2.2.1 5 rfl rfl⟩

/-- Claim C5: a successful `list(params)` makes `items` exactly the content
array of the returned page, whatever the previous mirror held, and returns
the page. -/
theorem c5_list_replaces_mirror {T E : Type} (params : Option BaseListParams)
    (s : CrudState T) (response : PaginatedResponse T) :
    (getList params s (Except.ok response : Except E (PaginatedResponse T))).1.items
      = response.content ∧
    (getList params s (Except.ok response : Except E (PaginatedResponse T))).2
      = Except.ok response :=
  ⟨rfl, rfl⟩

/-- Claim C7 (counterexample): a successful `create` does not store the
created item in `currentItem`.  With `currentItem = some 3`, a create that
succeeds returning `7` leaves `currentItem = some 3 ≠ some 7`, so after this
operation `currentItem` does not hold the item the operation returned. -/
theorem c7_counterexample_create_does_not_set_current_item :
    (create () (⟨false, some 3, []⟩ : CrudState Int)
        (Except.ok 7 : Except Unit Int)).2 = Except.ok 7 ∧
    (create () (⟨false, some 3, []⟩ : CrudState Int)
        (Except.ok 7 : Except Unit Int)).1.currentItem ≠ some 7 := by
  exact ⟨rfl, by decide⟩

/-- Claim C7 (amended): after a successful `getById(id)` or
`update(id, payload)`, `currentItem` holds the item returned by that
operation; a successful `create(payload)` leaves `currentItem` unchanged —
the slot records the last individually fetched or updated item, not the
last created one. -/
theorem c7_current_item_tracks_fetch_and_update {T C U E : Type}
    (getItemId : T → Int) (i : Int) (creq : C) (ureq : U)
    (s : CrudState T) (item : T) :
    (getById i s (Except.ok item : Except E T)).1.currentItem = some item ∧
    (update getItemId i ureq s (Except.ok item : Except E T)).1.currentItem = some item ∧
    (create creq s (Except.ok item : Except E T)).1.currentItem = s.currentItem :=
  ⟨rfl, rfl, rfl⟩

/-- Claim C8: at wrapper construction `items` is the empty sequence,
`currentItem` is empty, and the busy flag is false. -/
theorem c8_initial_state_empty {T : Type} :
    (initialState : CrudState T).items = [] ∧
    (initialState : CrudState T).currentItem = none ∧
    (initialState : CrudState T).isLoading = false :=
  ⟨rfl, rfl, rfl⟩

/-- Claim C10: a successful `update(id, payload)` with no matching element
leaves `items` unchanged (the returned item is not inserted) while still
setting `currentItem` to the returned item; and every element sharing the
identifier `id` is replaced by the returned item. -/
theorem c10_update_unmatched_and_duplicates {T U E : Type} (getItemId : T → Int)
    (i : Int) (request : U) (s : CrudState T) (u : T) :
    ((∀ x ∈ s.items, getItemId x ≠ i) →
       (update getItemId i request s (Except.ok u : Except E T)).1.items = s.items) ∧
    (update getItemId i request s (Except.ok u : Except E T)).1.currentItem = some u ∧
    (∀ (k : Nat) (x : T), s.items[k]? = some x → getItemId x = i →
       ((update getItemId i request s (Except.ok u : Except E T)).1.items)[k]? = some u) := by
  refine ⟨?_, rfl, ?_⟩
  · intro h
    show s.items.map (fun item => if getItemId item = i then u else item) = s.items
    exact (List.map_congr_left (fun x hx => if_neg (h x hx))).trans (List.map_id s.items)
  · intro k x hk hx
    show (s.items.map (fun item => if getItemId item = i then u else item))[k]? = some u
    rw [List.getElem?_map, hk]
    simp [hx]

/-- Witness for C10: an update for id 9 on the mirror `[3, 5]` (no match)
leaves the mirror unchanged; an update for id 5 on `[5, 5]` (two matches)
replaces the element at position 0 with the returned item 7. -/
theorem c10_update_unmatched_and_duplicates_witness :
    (update (fun x : Int => x) 9 () (⟨false, none, [3, 5]⟩ : CrudState Int)
        (Except.ok 9 : Except Unit Int)).1.items = [3, 5] ∧
    (update (fun x : Int => x) 5 () (⟨false, none, [5, 5]⟩ : CrudState Int)
        (Except.ok 7 : Except Unit Int)).1.items[0]? = some 7 :=
  ⟨(c10_update_unmatched_and_duplicates (fun x : Int => x) 9 ()
      ⟨false, none, [3, 5]⟩ 9).1 (by decide),
   (c10_update_unmatched_and_duplicates (fun x : Int => x) 5 ()
      ⟨false, none, [5, 5]⟩ 7).2.2 0 5 rfl rfl⟩

/-- Claim C9: frame effects of successful operations — `create` and
`getList` leave `currentItem` unchanged, `getById` leaves `items`
unchanged. -/
theorem c9_successful_operations_frame {T C E : Type} (creq : C)
    (params : Option BaseListParams) (i : Int) (s : CrudState T)
    (item : T) (response : PaginatedResponse T) :
    (create creq s (Except.ok item : Except E T)).1.currentItem = s.currentItem ∧
    (getList params s (Except.ok response : Except E (PaginatedResponse T))).1.currentItem
      = s.currentItem ∧
    (getById i s (Except.ok item : Except E T)).1.items = s.items :=
  ⟨rfl, rfl, rfl⟩

/-- Every settlement handler (success of any of the five operations, or the
shared failure handler) ends with the busy flag set to false. -/
theorem applySettlement_isLoading_false {T : Type} (getItemId : T → Int)
    (out : Settlement T) (s : CrudState T) :
    (applySettlement getItemId out s).isLoading = false := by
  cases out <;> rfl

/-- Trace invariant: whenever no call of the wrapper is in flight, the busy
flag is false. -/
theorem runTrace_idle_flag_false {T : Type} (getItemId : T → Int) :
    ∀ (t : List (CallEvent T)) (ts ts2 : TraceState T),
      runTrace getItemId ts t = some ts2 →
      (ts.openCalls = [] → ts.st.isLoading = false) →
      (ts2.openCalls = [] → ts2.st.isLoading = false) := by
  intro t
  induction t with
  | nil =>
      intro ts ts2 h hinv
      simp only [runTrace] at h
      cases h
      exact hinv
  | cons e rest ih =>
      intro ts ts2 h hinv
      cases e with
      | issue c =>
          simp only [runTrace, stepEvent] at h
          by_cases hc : c ∈ ts.issued
          · simp [hc] at h
          · simp only [hc, if_neg, not_false_eq_true, Option.some_bind] at h
            exact ih _ _ h (fun hco => by simp at hco)
      | settle c out =>
          simp only [runTrace, stepEvent] at h
          by_cases hc : c ∈ ts.openCalls
          · simp only [hc, if_pos, Option.some_bind] at h
            exact ih _ _ h (fun _ => applySettlement_isLoading_false getItemId out ts.st)
          · simp [hc] at h

/-- Trace invariant: on a serialized trace (no call issued while another is
in flight) the busy flag is true whenever the call is in flight. -/
theorem runTrace_serialized_flag_true {T : Type} (getItemId : T → Int) :
    ∀ (t : List (CallEvent T)) (ts ts2 : TraceState T),
      runTrace getItemId ts t = some ts2 →
      serializedFrom ts.openCalls.length t = true →
      ts.openCalls.length ≤ 1 →
      (ts.openCalls ≠ [] → ts.st.isLoading = true) →
      (ts2.openCalls ≠ [] → ts2.st.isLoading = true) := by
  intro t
  induction t with
  | nil =>
      intro ts ts2 h _ _ hinv
      simp only [runTrace] at h
      cases h
      exact hinv
  | cons e rest ih =>
      intro ts ts2 h hser hle hinv
      cases e with
      | issue c =>
          simp only [runTrace, stepEvent] at h
          by_cases hc : c ∈ ts.issued
          · simp [hc] at h
          · simp only [hc, if_neg, not_false_eq_true, Option.some_bind] at h
            simp only [serializedFrom, Bool.and_eq_true, decide_eq_true_eq] at hser
            obtain ⟨hk0, hser1⟩ := hser
            refine ih _ _ h ?_ ?_ ?_
            · simpa [hk0] using hser1
            · simp [hk0]
            · intro _
              rfl
      | settle c out =>
          simp only [runTrace, stepEvent] at h
          by_cases hc : c ∈ ts.openCalls
          · simp only [hc, if_pos, Option.some_bind] at h
            simp only [serializedFrom] at hser
            have hlen : (ts.openCalls.erase c).length = ts.openCalls.length - 1 :=
              List.length_erase_of_mem hc
            have hlen1 : ts.openCalls.length = 1 :=
              le_antisymm hle (List.length_pos.mpr (List.ne_nil_of_mem hc))
            have hempty : ts.openCalls.erase c = [] := by
              have h0 : (ts.openCalls.erase c).length = 0 := by
                rw [hlen, hlen1]
              exact List.length_eq_zero.mp h0
            refine ih _ _ h ?_ ?_ ?_
            · simpa [hlen, hlen1] using hser
            · simp [hlen, hlen1]
            · intro hne
              exact absurd hempty hne
          · simp [hc] at h

/-- Claim C6 (amended): after any well-formed event trace of this wrapper,
the busy flag is false whenever no call is in flight; and, provided the
calls are serialized (each call settles before the next is issued), the
flag is true whenever a call is in flight — that is, for the whole interval
from issuance to settlement.  Without serialization the interval guarantee
does not hold (see the counterexample): settling one call resets the flag
even while another call is still outstanding. -/
theorem c6_busy_flag_serialized {T : Type} (getItemId : T → Int)
    (t : List (CallEvent T)) (ts : TraceState T)
    (hrun : runTrace getItemId initTrace t = some ts) :
    (ts.openCalls = [] → ts.st.isLoading = false) ∧
    (Serialized t → ts.openCalls ≠ [] → ts.st.isLoading = true) := by
  constructor
  · exact runTrace_idle_flag_false getItemId t initTrace ts hrun (fun _ => rfl)
  · intro hser
    refine runTrace_serialized_flag_true getItemId t initTrace ts hrun hser ?_ ?_
    · exact Nat.zero_le 1
    · intro hne
      exact absurd rfl hne

/-- Witness for C6 at the serialized one-event trace issuing call 0: the
call is in flight afterwards and the busy flag is true. -/
theorem c6_busy_flag_serialized_witness :
    (⟨⟨true, none, []⟩, [0], [0]⟩ : TraceState Nat).st.isLoading = true :=
  (c6_busy_flag_serialized (fun n : Nat => (n : Int)) [CallEvent.issue 0]
      ⟨⟨true, none, []⟩, [0], [0]⟩ rfl).2 rfl (by decide)

/-- Counterexample to C6 as stated: in the well-formed trace that issues
call 0, issues call 1, and then settles call 0 with a failure, call 1 is
still in flight but the busy flag is already false — so `isLoading` is not
true for the entire issuance-to-settlement interval of every call. -/
theorem c6_counterexample_overlapping_calls :
    ¬ (∀ (t : List (CallEvent Nat)) (ts : TraceState Nat),
         runTrace (fun n : Nat => (n : Int)) initTrace t = some ts →
         ∀ c ∈ ts.openCalls, ts.st.isLoading = true) := by
  intro h
  have h1 := h [CallEvent.issue 0, CallEvent.issue 1, CallEvent.settle 0 Settlement.failed]
      ⟨⟨false, none, []⟩, [1], [1, 0]⟩ rfl 1 (by decide)
  simp at h1
